import Mathlib

/-!
Verification development for the openclaw-channel-talk plugin.

The definitions below are a shallow embedding of the TypeScript sources:
`src/api.ts` (markdown/block conversion, message sending shapes),
`src/webhook.ts` (webhook event processing: filtering, identity
resolution, pairing gate, dispatch) and `src/function.ts` (function /
command request normalization and HTTP handling).  JavaScript strings are
modelled as Lean `String` (with `List Char` used where character-level
reasoning about `split` / `trim` / regex replacement is needed); `??`
(nullish coalescing) becomes `Option.orElse` / `Option.getD`, and `||` on
strings becomes `jsOrS`, which also falls back on the empty string.
External collaborators (the pairing store, the agent-routing runtime) are
modelled as an explicit environment of pure functions.
-/

namespace CT

/-! ## JavaScript string helpers -/

/-- JavaScript `a || b` for possibly-absent strings: `b` wins whenever `a`
is absent or empty (falsy). -/
def jsOrS (a b : Option String) : Option String :=
  match a with
  | some s => if s = "" then b else some s
  | none => b

/-- Truthiness of an optional string: present and non-empty. -/
def optTruthy (o : Option String) : Bool :=
  match o with
  | some s => s ≠ ""
  | none => false

/-- Character-level whitespace trim, modelling JavaScript `String.trim`. -/
def trimC (cs : List Char) : List Char :=
  ((cs.dropWhile Char.isWhitespace).reverse.dropWhile Char.isWhitespace).reverse

/-- JavaScript `s.trim()`. -/
def jsTrim (s : String) : String := ⟨trimC s.data⟩

/-- Split a character list at newline characters, modelling
JavaScript `text.split("\n")` (the result is never empty). -/
def splitNl : List Char → List (List Char)
  | [] => [[]]
  | c :: rest =>
    if c = '\n' then [] :: splitNl rest
    else
      match splitNl rest with
      | l :: ls => (c :: l) :: ls
      | [] => [[c]]

/-- Join lines with newline characters, modelling `lines.join("\n")`. -/
def joinNl : List (List Char) → List Char
  | [] => []
  | [l] => l
  | l :: ls => l ++ '\n' :: joinNl ls

theorem splitNl_ne_nil (cs : List Char) : splitNl cs ≠ [] := by
  cases cs with
  | nil => simp [splitNl]
  | cons c rest =>
    simp only [splitNl]
    split
    · simp
    · split <;> simp

theorem joinNl_splitNl (cs : List Char) : joinNl (splitNl cs) = cs := by
  induction cs with
  | nil => rfl
  | cons c rest ih =>
    simp only [splitNl]
    split
    · rename_i h
      have hne := splitNl_ne_nil rest
      cases hsp : splitNl rest with
      | nil => exact absurd hsp hne
      | cons l ls =>
        rw [hsp] at ih
        simp [joinNl, h, ← ih, hsp]
    · cases hsp : splitNl rest with
      | nil => exact absurd hsp (splitNl_ne_nil rest)
      | cons l ls =>
        rw [hsp] at ih
        cases ls with
        | nil => simpa [joinNl] using congrArg (c :: ·) ih
        | cons l' ls' => simpa [joinNl] using congrArg (c :: ·) ih

/-! ## Tag stripping

Models the JavaScript replacement `value.replace(/<[^>]+>/g, "")` used by
`blocksToText` in `src/api.ts`: a `<`, at least one non-`>` character, and
a closing `>` are deleted; a `<` with no such closing is kept verbatim. -/

/-- One-pass scanner for `/<[^>]+>/g` removal.  The second argument is the
pending (reversed) buffer of an open candidate tag, `none` when outside a
candidate. -/
def stripTagsAux : List Char → Option (List Char) → List Char
  | [], none => []
  | [], some buf => buf.reverse
  | c :: rest, none =>
    if c = '<' then stripTagsAux rest (some ['<'])
    else c :: stripTagsAux rest none
  | c :: rest, some buf =>
    if c = '>' then
      if buf = ['<'] then '<' :: '>' :: stripTagsAux rest none
      else stripTagsAux rest none
    else stripTagsAux rest (some (c :: buf))

/-- JavaScript `s.replace(/<[^>]+>/g, "")`. -/
def stripTags (s : String) : String := ⟨stripTagsAux s.data none⟩

/-! ## Message blocks (`src/api.ts`) -/

/-- Nested block of a `bullets` block, as read by `blocksToText`. -/
structure SubBlock where
  value : Option String
deriving DecidableEq

/-- Channel Talk message block: the union of `TextBlock`, `CodeBlock` and
`BulletsBlock` from `src/api.ts`, in the loose wire shape
`{ type, value?, language?, blocks? }` that `blocksToText` consumes. -/
structure MsgBlock where
  type : String
  value : Option String
  language : Option String
  blocks : List SubBlock
deriving DecidableEq

/-- The `flushText` closure of `markdownToBlocks`: emit the joined,
trimmed text lines as one `text` block when non-empty. -/
def flushText (textLines : List (List Char)) (blocks : List MsgBlock) : List MsgBlock :=
  if textLines.isEmpty then blocks
  else
    let value := trimC (joinNl textLines)
    if value.isEmpty then blocks
    else blocks ++ [⟨"text", some ⟨value⟩, none, []⟩]

/-- The `flushCode` closure of `markdownToBlocks`: emit the collected code
lines as one `code` block; the code-line buffer and language are reset
only when something was emitted, as in the source. -/
def flushCode (codeLang : List Char) (codeLines : List (List Char)) (blocks : List MsgBlock) :
    List MsgBlock × List (List Char) × List Char :=
  if codeLines.isEmpty then (blocks, codeLines, codeLang)
  else
    (blocks ++ [⟨"code", some ⟨joinNl codeLines⟩,
      if codeLang.isEmpty then none else some ⟨codeLang⟩, []⟩], [], [])

/-- ASCII word character, as in the JavaScript regex class `\w`. -/
def isWordChar (c : Char) : Bool :=
  ('a' ≤ c ∧ c ≤ 'z') ∨ ('A' ≤ c ∧ c ≤ 'Z') ∨ ('0' ≤ c ∧ c ≤ '9') ∨ c = '_'

/-- The backtick character. -/
def backquote : Char := Char.ofNat 96

/-- Match of the fence regex `/^```(\w*)$/` against one line, returning
the captured language on success. -/
def fenceMatch (cs : List Char) : Option (List Char) :=
  match cs with
  | a :: b :: c :: rest =>
    if a = backquote ∧ b = backquote ∧ c = backquote ∧ rest.all isWordChar then some rest
    else none
  | _ => none

/-- Main line loop of `markdownToBlocks`, carrying the `inCode`,
`codeLang`, `codeLines`, `textLines` and `blocks` state of the source. -/
def mdLoop : List (List Char) → Bool → List Char → List (List Char) → List (List Char) →
    List MsgBlock → List MsgBlock
  | [], inCode, codeLang, codeLines, textLines, blocks =>
    let blocks := if inCode then (flushCode codeLang codeLines blocks).1 else blocks
    flushText textLines blocks
  | line :: rest, inCode, codeLang, codeLines, textLines, blocks =>
    match fenceMatch line with
    | some lang =>
      if inCode then
        match flushCode codeLang codeLines blocks with
        | (blocks', codeLines', codeLang') => mdLoop rest false codeLang' codeLines' textLines blocks'
      else
        mdLoop rest true lang codeLines [] (flushText textLines blocks)
    | none =>
      if inCode then mdLoop rest true codeLang (codeLines ++ [line]) textLines blocks
      else mdLoop rest false codeLang codeLines (textLines ++ [line]) blocks

/-- Embedding of `markdownToBlocks` from `src/api.ts`: code fences become
`code` blocks, the remaining text becomes `text` blocks, with a fallback
single text block carrying the raw input when nothing was produced. -/
def markdownToBlocks (text : String) : List MsgBlock :=
  let result := mdLoop (splitNl text.data) false [] [] [] []
  if result.isEmpty then [⟨"text", some text, none, []⟩] else result

/-- Per-block contribution to `blocksToText` (the pushes into `parts`). -/
def blockParts (b : MsgBlock) : List String :=
  if b.type = "text" ∧ optTruthy b.value then [stripTags (b.value.getD "")]
  else if b.type = "code" ∧ optTruthy b.value then ["```\n" ++ b.value.getD "" ++ "\n```"]
  else if b.type = "bullets" then
    b.blocks.filterMap fun sub =>
      if optTruthy sub.value then some ("- " ++ stripTags (sub.value.getD "")) else none
  else []

/-- Embedding of `blocksToText` from `src/api.ts` (`parts.join("\n")`
written as the character-level newline join). -/
def blocksToText (blocks : List MsgBlock) : String :=
  ⟨joinNl ((blocks.map blockParts).flatten.map String.data)⟩

/-! ## Webhook event data model (`src/webhook.ts`) -/

/-- The `refers.userChat` record of a webhook event. -/
structure RefUserChat where
  id : Option String
  userId : Option String
  name : Option String
  state : Option String
deriving DecidableEq

/-- The `refers.user.profile` record of a webhook event. -/
structure RefProfile where
  email : Option String
  mobileNumber : Option String
  name : Option String
deriving DecidableEq

/-- The `refers.user` record of a webhook event. -/
structure RefUser where
  id : Option String
  name : Option String
  profile : Option RefProfile
deriving DecidableEq

/-- The `refers.manager` record of a webhook event. -/
structure RefManager where
  id : Option String
  name : Option String
  email : Option String
deriving DecidableEq

/-- The `refers` section of a `ChannelTalkWebhookEvent`. -/
structure Refers where
  userChat : Option RefUserChat
  user : Option RefUser
  manager : Option RefManager
deriving DecidableEq

/-- The `entity` section of a `ChannelTalkWebhookEvent` (the message). -/
structure MessageEntity where
  id : Option String
  chatId : Option String
  chatType : Option String
  personType : Option String
  personId : Option String
  plainText : Option String
  blocks : Option (List MsgBlock)
  createdAt : Option Nat
deriving DecidableEq

/-- Embedding of `ChannelTalkWebhookEvent`. -/
structure WebhookEvent where
  event : Option String
  type : Option String
  entity : Option MessageEntity
  refers : Option Refers
deriving DecidableEq

/-- Embedding of `ChannelTalkCredentials` from `src/api.ts`. -/
structure ChannelTalkCredentials where
  accessKey : String
  accessSecret : String
deriving DecidableEq

/-- Embedding of `WebhookTarget` from `src/webhook.ts` (the opaque `cfg`
and `log` members are dropped; the account configuration reached through
the global plugin config is modelled in `Env`). -/
structure WebhookTarget where
  accountId : String
  creds : ChannelTalkCredentials
  botName : Option String
  groupAllowFrom : Option (List String)
  triggerKeywords : List String
deriving DecidableEq

/-- The per-account configuration record
`cfg.channels["channel-talk"].accounts[accountId] ?? {}` consulted by
`processWebhookEvent`. -/
structure AccountCfg where
  dmPolicy : Option String
  allowFrom : Option (List String)

/-- Pure model of the external collaborators used by
`processWebhookEvent`: the account configuration, the pairing store
(`readAllowFromStore`, `upsertPairingRequest`, `buildPairingReply`), the
routing capability (`resolveAgentRoute(...).sessionKey`, keyed by account
id, peer kind and peer id) and the clock (`Date.now()`). -/
structure Env where
  account : AccountCfg
  storeAllowFrom : List String
  upsert : String → String × Bool
  buildPairingReply : String → String → String
  resolveSessionKey : String → String → String → String
  now : Nat

/-- One outbound `sendMessage` call (credentials omitted). -/
structure Send where
  chatId : String
  text : String
  chatType : String
  botName : Option String
deriving DecidableEq

/-- The inbound-message context built by `processWebhookEvent` for
`finalizeInboundContext` (lines 259-282 of `src/webhook.ts`). -/
structure InboundCtx where
  Body : String
  RawBody : String
  CommandBody : String
  BodyForAgent : String
  BodyForCommands : String
  From : String
  To : String
  SessionKey : String
  AccountId : String
  ChatType : String
  ConversationLabel : String
  SenderName : String
  SenderId : String
  SenderUsername : String
  Provider : String
  Surface : String
  MessageSid : String
  MessageSidFull : String
  Timestamp : Nat
  OriginatingChannel : String
  OriginatingTo : String
  GroupSubject : Option String
deriving DecidableEq

/-- Result of one run of `processWebhookEvent`: the early returns of the
source in order (each `skip*` constructor is one `return;` site), the two
terminations of the pairing branch, and the hand-off to the agent
pipeline. -/
inductive Outcome where
  | skipNotMessage
  | skipNoEntity
  | skipBot
  | skipNoChatId
  | skipEmptyText
  | skipNoKeyword
  | pairingPrompted (senderId code : String) (send : Send)
  | pairingPending (senderId code : String)
  | dispatched (ctx : InboundCtx)
deriving DecidableEq

/-- Outbound sends performed directly by `processWebhookEvent` itself
(the pairing prompt; sends made later by the external agent pipeline via
the delivery callback are not part of the core's own behaviour). -/
def Outcome.sends : Outcome → List Send
  | .pairingPrompted _ _ s => [s]
  | _ => []

/-- Whether the run reached `dispatchReplyWithBufferedBlockDispatcher`. -/
def Outcome.pipelineInvoked : Outcome → Bool
  | .dispatched _ => true
  | _ => false

/-! ## Webhook event processing (`src/webhook.ts`, lines 134-309) -/

/-- The chat id of the referenced user chat, `event.refers?.userChat?.id`. -/
def refersUserChatId (refers : Option Refers) : Option String :=
  (refers.bind Refers.userChat).bind RefUserChat.id

/-- Chat-id resolution `message.chatId ?? event.refers?.userChat?.id`
(line 152 of `src/webhook.ts`). -/
def resolveChatId (message : MessageEntity) (refers : Option Refers) : Option String :=
  match message.chatId with
  | some c => some c
  | none => refersUserChatId refers

/-- Message text extraction (lines 156-157):
`message.plainText?.trim() ?? (message.blocks ? blocksToText(message.blocks) : "").trim()`. -/
def extractText (message : MessageEntity) : String :=
  match message.plainText with
  | some s => jsTrim s
  | none => jsTrim (match message.blocks with | some bs => blocksToText bs | none => "")

/-- Contiguous-substring test on character lists, modelling JavaScript
`haystack.includes(needle)`. -/
def containsSeq (needle : List Char) : List Char → Bool
  | [] => needle.isEmpty
  | c :: rest => needle.isPrefixOf (c :: rest) || containsSeq needle rest

/-- Keyword trigger check (lines 162-163):
`target.triggerKeywords.some((kw) => lower.includes(kw.toLowerCase()))`
where `lower = rawBody.toLowerCase()`. -/
def keywordTriggered (keywords : List String) (body : String) : Bool :=
  keywords.any fun kw => containsSeq kw.toLower.data body.toLower.data

/-- Sender identity resolution (lines 167-185): the manager branch is
taken when `message.personType === "manager"` and a referenced manager
record exists; otherwise the customer branch applies.  Returns
`(senderId, senderName, senderEmail)`. -/
def resolveSender (message : MessageEntity) (refers : Option Refers) :
    String × String × Option String :=
  match message.personType, refers.bind Refers.manager with
  | some "manager", some mgr =>
    ((message.personId.orElse fun _ => mgr.id).getD "unknown",
     mgr.name.getD "Manager",
     mgr.email)
  | _, _ =>
    ((message.personId.orElse fun _ => (refers.bind Refers.user).bind RefUser.id).getD "unknown",
     (((((refers.bind Refers.user).bind RefUser.profile).bind RefProfile.name).orElse
        fun _ => (refers.bind Refers.user).bind RefUser.name).orElse
        fun _ => (refers.bind Refers.userChat).bind RefUserChat.name).getD "User",
     ((refers.bind Refers.user).bind RefUser.profile).bind RefProfile.email)

/-- The dispatch stage (lines 247-308): resolve the agent route, build
the inbound context and invoke the agent pipeline. -/
def dispatchStage (senderId senderName : String) (senderEmail : Option String)
    (messageId chatId rawBody : String) (isGroupChat : Bool) (createdAt : Option Nat)
    (target : WebhookTarget) (env : Env) : Outcome :=
  let sessionKey :=
    env.resolveSessionKey target.accountId (if isGroupChat then "group" else "dm") chatId
  .dispatched
    { Body := rawBody
      RawBody := rawBody
      CommandBody := rawBody
      BodyForAgent := rawBody
      BodyForCommands := rawBody
      From := "channel-talk:" ++ senderId
      To := "channel-talk:" ++ chatId
      SessionKey := sessionKey
      AccountId := target.accountId
      ChatType := if isGroupChat then "channel" else "direct"
      ConversationLabel := senderName
      SenderName := senderName
      SenderId := senderId
      SenderUsername := senderEmail.getD senderId
      Provider := "channel-talk"
      Surface := "channel-talk"
      MessageSid := messageId
      MessageSidFull := messageId
      Timestamp := createdAt.getD env.now
      OriginatingChannel := "channel-talk"
      OriginatingTo := "channel-talk:" ++ chatId
      GroupSubject := if isGroupChat then some ("team-chat:" ++ chatId) else none }

/-- The access gate and dispatch (lines 187-308): only the `"pairing"`
policy triggers any gating in the source; an unpaired sender gets the
idempotent store upsert, a pairing prompt is sent only when the upsert
reports `created`, and every other configuration falls through to
`dispatchStage`. -/
def gateAndDispatch (senderId senderName : String) (senderEmail : Option String)
    (messageId chatId rawBody : String) (isGroupChat : Bool) (personType : Option String)
    (createdAt : Option Nat) (target : WebhookTarget) (env : Env) : Outcome :=
  let dmPolicy := env.account.dmPolicy.getD "pairing"
  let configAllowFrom := env.account.allowFrom.getD []
  if dmPolicy = "pairing" then
    let combinedAllowFrom := configAllowFrom ++ env.storeAllowFrom
    let isAllowed := combinedAllowFrom.contains senderId || combinedAllowFrom.contains "*"
    if isAllowed then
      dispatchStage senderId senderName senderEmail messageId chatId rawBody isGroupChat
        createdAt target env
    else
      let res := env.upsert senderId
      let code := res.1
      let created := res.2
      if created then
        let personTypeLabel := if personType = some "manager" then "manager" else "user"
        let idLine := "Channel Talk " ++ personTypeLabel ++ " ID: " ++ senderId
        let replyText := (env.buildPairingReply idLine code).replace "<code>" code
        .pairingPrompted senderId code
          ⟨chatId, replyText, if isGroupChat then "group" else "userChat", target.botName⟩
      else .pairingPending senderId code
  else
    dispatchStage senderId senderName senderEmail messageId chatId rawBody isGroupChat
      createdAt target env

/-- Embedding of `processWebhookEvent` from `src/webhook.ts`. -/
def processWebhookEvent (event : WebhookEvent) (target : WebhookTarget) (env : Env) : Outcome :=
  if event.type ≠ some "Message" then .skipNotMessage
  else
    match event.entity with
    | none => .skipNoEntity
    | some message =>
      if message.personType = some "bot" then .skipBot
      else
        let chatType := message.chatType.getD "userChat"
        let isGroupChat := chatType = "group"
        match resolveChatId message event.refers with
        | none => .skipNoChatId
        | some chatId =>
          if chatId = "" then .skipNoChatId
          else
            let rawBody := extractText message
            if rawBody = "" then .skipEmptyText
            else if isGroupChat ∧ target.triggerKeywords ≠ [] ∧
                ¬ keywordTriggered target.triggerKeywords rawBody then .skipNoKeyword
            else
              let sres := resolveSender message event.refers
              gateAndDispatch sres.1 sres.2.1 sres.2.2 (message.id.getD "") chatId rawBody
                isGroupChat message.personType message.createdAt target env

/-- The message-filter portion of `processWebhookEvent` (lines 139-165 of
`src/webhook.ts`, §4.2 of the design): event-type check, bot-loop
suppression, empty-text check and the group keyword trigger.  The chat-id
resolution interleaved in the source belongs to the identity resolver
(§4.3) and is not part of this predicate. -/
def shouldProcess (event : WebhookEvent) (target : WebhookTarget) : Bool :=
  if event.type ≠ some "Message" then false
  else
    match event.entity with
    | none => false
    | some message =>
      if message.personType = some "bot" then false
      else
        let isGroupChat := message.chatType.getD "userChat" = "group"
        let rawBody := extractText message
        if rawBody = "" then false
        else if isGroupChat ∧ target.triggerKeywords ≠ [] then
          keywordTriggered target.triggerKeywords rawBody
        else true

/-! ## Function (command) request processing (`src/function.ts`) -/

/-- The nested `params.chat` object of a function request. -/
structure ChatRef where
  id : Option String
  type : Option String
deriving DecidableEq

/-- The nested `params.input` object of a function request. -/
structure InputRef where
  message : Option String
deriving DecidableEq

/-- The `params` section of a `ChannelTalkFunctionRequest`, with both the
nested (`chat`, `input`) and the flat legacy (`chatId`, `chatType`,
`value`) fields. -/
structure FunctionParams where
  chat : Option ChatRef
  input : Option InputRef
  chatId : Option String
  chatType : Option String
  value : Option String
deriving DecidableEq

/-- The `context.caller` record of a function request. -/
structure Caller where
  type : Option String
  id : Option String
deriving DecidableEq

/-- The `context` section of a `ChannelTalkFunctionRequest`. -/
structure FunctionContext where
  caller : Option Caller
deriving DecidableEq

/-- Embedding of `ChannelTalkFunctionRequest`. -/
structure FunctionRequest where
  method : Option String
  params : Option FunctionParams
  context : Option FunctionContext
deriving DecidableEq

/-- Embedding of `FunctionTarget` from `src/function.ts` (opaque `cfg`
and `log` dropped). -/
structure FunctionTarget where
  accountId : String
  creds : ChannelTalkCredentials
  botName : Option String
deriving DecidableEq

/-- Embedding of `ChannelTalkFunctionResponse`: either the tagged error
variant `{ result: { error } }` or the text variant
`{ result: { type: "text", value } }`. -/
inductive FunctionResponse where
  | error (msg : String)
  | text (value : String)
deriving DecidableEq

/-- Chat-id extraction of `processFunctionRequest` (line 152):
`(params as any).chat?.id || params.chatId`, with the subsequent
`if (!chatId)` falsiness check folded into the empty-string result. -/
def fnChatId (params : FunctionParams) : String :=
  (jsOrS (params.chat.bind ChatRef.id) params.chatId).getD ""

/-- Chat-type extraction (line 153):
`(params as any).chat?.type || params.chatType || "userChat"`. -/
def fnChatType (params : FunctionParams) : String :=
  (jsOrS (params.chat.bind ChatRef.type) (jsOrS params.chatType (some "userChat"))).getD "userChat"

/-- User-input extraction (line 155):
`((params as any).input?.message || params.value || "").trim()`. -/
def fnUserInput (params : FunctionParams) : String :=
  jsTrim ((jsOrS (params.input.bind InputRef.message) (jsOrS params.value (some ""))).getD "")

/-- Caller-id extraction (line 166): `context.caller?.id ?? "unknown"`. -/
def fnCallerId (context : FunctionContext) : String :=
  (context.caller.bind Caller.id).getD "unknown"

/-- Caller-kind extraction (line 167): `context.caller?.type ?? "user"`. -/
def fnCallerType (context : FunctionContext) : String :=
  (context.caller.bind Caller.type).getD "user"

/-- The webhook event synthesized by `processFunctionRequest`
(lines 170-192): message id from the clock, the extracted chat id, chat
type and trimmed input, the caller as author, and a `refers` section with
the manager slot filled for caller kind `"manager"` and the user slot
filled for caller kind `"user"`. -/
def fnSynthEvent (params : FunctionParams) (context : FunctionContext) (env : Env) :
    WebhookEvent :=
  let callerId := fnCallerId context
  let callerType := fnCallerType context
  { event := some "push"
    type := some "Message"
    entity := some
      { id := some ("function-" ++ toString env.now)
        chatId := some (fnChatId params)
        chatType := some (fnChatType params)
        personType := some callerType
        personId := some callerId
        plainText := some (fnUserInput params)
        blocks := none
        createdAt := some env.now }
    refers := some
      { userChat := none
        user := if callerType = "user" then some ⟨some callerId, some "User", none⟩ else none
        manager :=
          if callerType = "manager" then some ⟨some callerId, some "Manager", none⟩
          else none } }

/-- The webhook target synthesized from a function target
(lines 195-202): no keyword filtering for commands. -/
def fnSynthTarget (target : FunctionTarget) : WebhookTarget :=
  { accountId := target.accountId
    creds := target.creds
    botName := target.botName
    groupAllowFrom := none
    triggerKeywords := [] }

/-- Embedding of `processFunctionRequest` from `src/function.ts`.  The
first component is the returned `ChannelTalkFunctionResponse`; the second
is the synthesized webhook event and target handed to the backgrounded
`processWebhookEvent` call (`none` on the early error returns, which skip
that call). -/
def processFunctionRequest (request : FunctionRequest) (target : FunctionTarget) (env : Env) :
    FunctionResponse × Option (WebhookEvent × WebhookTarget) :=
  let params := request.params.getD ⟨none, none, none, none, none⟩
  let context := request.context.getD ⟨none⟩
  if fnChatId params = "" then (.error "Missing chatId in params", none)
  else if fnUserInput params = "" then (.error "Missing user input", none)
  else (.text "처리 중입니다...", some (fnSynthEvent params context env, fnSynthTarget target))

/-! ## HTTP boundary (`src/webhook.ts` lines 72-91, `src/function.ts`
lines 85-108)

Both handlers are modelled after routing (path and method matched, the
account target found): the remaining behaviour is determined by the
outcome of `readJsonBody`, modelled as `BodyRead`. -/

/-- Outcome of `readJsonBody`: a parsed body or one of its error tags. -/
inductive BodyRead (α : Type) where
  | ok (data : α)
  | invalidJson
  | payloadTooLarge
  | readError
deriving DecidableEq

/-- What a handler wrote into the HTTP response body. -/
inductive HttpBody where
  | emptyJson
  | errorText (err : String)
  | jsonError (err : String)
  | jsonAck (value : String)
deriving DecidableEq

/-- An HTTP response as produced by the handlers. -/
structure HttpResponse where
  status : Nat
  body : HttpBody
deriving DecidableEq

/-- Body handling of `handleChannelTalkWebhook`: errors of `readJsonBody`
are surfaced synchronously (413 for the size cap, 400 otherwise) with the
error tag as plain-text body; a parsed body is acknowledged with
`200 {}` and `processWebhookEvent` is started in the background (second
component: the background run's result, `none` when none is started). -/
def handleWebhookBody (read : BodyRead WebhookEvent) (target : WebhookTarget) (env : Env) :
    HttpResponse × Option Outcome :=
  match read with
  | .ok data => (⟨200, .emptyJson⟩, some (processWebhookEvent data target env))
  | .invalidJson => (⟨400, .errorText "invalid_json"⟩, none)
  | .payloadTooLarge => (⟨413, .errorText "payload_too_large"⟩, none)
  | .readError => (⟨400, .errorText "read_error"⟩, none)

/-- Body handling of `handleChannelTalkFunction`: errors of
`readJsonBody` are surfaced synchronously (413 / 400) with a JSON
`{ result: { error } }` body; a parsed body is acknowledged with the
fixed processing-ack text and `processFunctionRequest` is started in the
background, its returned response discarded. -/
def handleFunctionBody (read : BodyRead FunctionRequest) (target : FunctionTarget) (env : Env) :
    HttpResponse × Option (FunctionResponse × Option (WebhookEvent × WebhookTarget)) :=
  match read with
  | .ok data => (⟨200, .jsonAck "처리 중입니다..."⟩, some (processFunctionRequest data target env))
  | .invalidJson => (⟨400, .jsonError "invalid_json"⟩, none)
  | .payloadTooLarge => (⟨413, .jsonError "payload_too_large"⟩, none)
  | .readError => (⟨400, .jsonError "read_error"⟩, none)

/-! ## Claim C1: the access-policy state machine -/

/-- A direct-chat customer message from sender `alice`. -/
def c1Event : WebhookEvent :=
  ⟨some "push", some "Message",
   some ⟨some "m1", some "chat1", some "userChat", some "user", some "alice", some "hello",
     none, some 100⟩,
   some ⟨none, some ⟨some "alice", some "Alice", none⟩, none⟩⟩

/-- Webhook target for the C1 evaluation. -/
def c1Target : WebhookTarget := ⟨"default", ⟨"k", "s"⟩, none, none, []⟩

/-- Environment with `dmPolicy = "disabled"` and `alice` on the
configured allow list. -/
def c1EnvDisabled : Env :=
  ⟨⟨some "disabled", some ["alice"]⟩, [], fun _ => ("CODE", true), fun _ c => "pair " ++ c,
   fun _ _ _ => "sess", 5⟩

/-- Environment with `dmPolicy = "allowlist"` and `alice` absent from the
allow list. -/
def c1EnvAllowlist : Env :=
  ⟨⟨some "allowlist", some ["bob"]⟩, [], fun _ => ("CODE", true), fun _ c => "pair " ++ c,
   fun _ _ _ => "sess", 5⟩

/-- Claim C1: the spec's §4.4 access-policy state machine says
`accessPolicy = disabled` always yields `Denied` (even with the sender on
`configuredAllowList`) and `allowlist` denies non-members.  The code only
gates when `dmPolicy === "pairing"`: under `disabled`, and under
`allowlist` with a sender not on the list, the message is dispatched to
the agent pipeline — the README's own configuration table documents these
values as access control, so this is a bug in the code, not in the
claim. -/
theorem c1_policy_not_enforced :
    (processWebhookEvent c1Event c1Target c1EnvDisabled).pipelineInvoked = true ∧
    (processWebhookEvent c1Event c1Target c1EnvAllowlist).pipelineInvoked = true := by
  exact ⟨rfl, rfl⟩

/-! ## Claim C2: chat-id resolution and the missing-chat-id outcome -/

/-- Claim C2: the chat id is `message.chatId`, falling back to the
referenced user chat's id when the message-level field is absent; when
both are absent the run terminates in the distinct missing-chat-id
outcome (the silent drop at line 153 of `src/webhook.ts`), with no send
and no pipeline invocation — no other outcome. -/
theorem c2_chatId_resolution :
    (∀ (m : MessageEntity) (r : Option Refers) (c : String),
        m.chatId = some c → resolveChatId m r = some c) ∧
    (∀ (m : MessageEntity) (r : Option Refers),
        m.chatId = none → resolveChatId m r = refersUserChatId r) ∧
    (∀ (ev : WebhookEvent) (m : MessageEntity) (t : WebhookTarget) (env : Env),
        ev.type = some "Message" → ev.entity = some m → m.personType ≠ some "bot" →
        m.chatId = none → refersUserChatId ev.refers = none →
        processWebhookEvent ev t env = Outcome.skipNoChatId ∧
        (processWebhookEvent ev t env).sends = [] ∧
        (processWebhookEvent ev t env).pipelineInvoked = false) := by
  refine ⟨?_, ?_, ?_⟩
  · intro m r c h
    simp [resolveChatId, h]
  · intro m r h
    simp [resolveChatId, h]
  · intro ev m t env hty hent hbot hcid href
    have h : processWebhookEvent ev t env = Outcome.skipNoChatId := by
      simp [processWebhookEvent, hty, hent, hbot, resolveChatId, hcid, href]
    exact ⟨h, by rw [h]; rfl, by rw [h]; rfl⟩

/-- Message entity of the C2 witness: no `chatId`. -/
def c2Entity : MessageEntity :=
  ⟨some "m1", none, some "userChat", some "user", some "u1", some "hello", none, none⟩

/-- Webhook event of the C2 witness: referenced user chat without id. -/
def c2Event : WebhookEvent :=
  ⟨some "push", some "Message", some c2Entity, some ⟨some ⟨none, none, none, none⟩, none, none⟩⟩

/-- Target of the C2 witness. -/
def c2Target : WebhookTarget := ⟨"default", ⟨"k", "s"⟩, none, none, []⟩

/-- Environment of the C2 witness. -/
def c2Env : Env := ⟨⟨none, none⟩, [], fun _ => ("C", true), fun _ c => c, fun _ _ _ => "", 0⟩

/-- Witness for C2 at a concrete push event with both chat-id sources
absent. -/
theorem c2_witness : processWebhookEvent c2Event c2Target c2Env = Outcome.skipNoChatId :=
  (c2_chatId_resolution.2.2 c2Event c2Entity c2Target c2Env rfl rfl (by decide) rfl rfl).1

/-! ## Claim C10: `groupAllowFrom` never influences event processing -/

/-- Claim C10: two runs of `processWebhookEvent` on targets identical
except for `groupAllowFrom` produce the same outcome, hence the same
process/skip decision, the same outbound sends and the same pipeline
invocation — the field is registered in `startAccount` but never read. -/
theorem c10_groupAllowFrom_noninterference (ev : WebhookEvent) (env : Env) (aid : String)
    (cr : ChannelTalkCredentials) (bn : Option String) (g1 g2 : Option (List String))
    (kws : List String) :
    processWebhookEvent ev ⟨aid, cr, bn, g1, kws⟩ env =
      processWebhookEvent ev ⟨aid, cr, bn, g2, kws⟩ env ∧
    (processWebhookEvent ev ⟨aid, cr, bn, g1, kws⟩ env).sends =
      (processWebhookEvent ev ⟨aid, cr, bn, g2, kws⟩ env).sends ∧
    (processWebhookEvent ev ⟨aid, cr, bn, g1, kws⟩ env).pipelineInvoked =
      (processWebhookEvent ev ⟨aid, cr, bn, g2, kws⟩ env).pipelineInvoked := by
  have h : processWebhookEvent ev ⟨aid, cr, bn, g1, kws⟩ env =
      processWebhookEvent ev ⟨aid, cr, bn, g2, kws⟩ env := rfl
  exact ⟨h, by rw [h], by rw [h]⟩

/-! ## Claim C3: pairing gate for an unpaired sender -/

/-- Claim C3: under the pairing policy with a sender absent from the
combined allow list (and no wildcard), the store upsert decides the run:
when it reports a new request, exactly one pairing-instruction reply —
the templated message with the issued code substituted for `<code>` — is
sent to the originating chat; when not, nothing is sent; in either case
the agent pipeline is never invoked. -/
theorem c3_pairing_gate (senderId senderName : String) (senderEmail : Option String)
    (messageId chatId rawBody : String) (isGroupChat : Bool) (personType : Option String)
    (createdAt : Option Nat) (t : WebhookTarget) (env : Env)
    (hpol : env.account.dmPolicy.getD "pairing" = "pairing")
    (hmem : (env.account.allowFrom.getD [] ++ env.storeAllowFrom).contains senderId = false)
    (hwild : (env.account.allowFrom.getD [] ++ env.storeAllowFrom).contains "*" = false) :
    gateAndDispatch senderId senderName senderEmail messageId chatId rawBody isGroupChat
        personType createdAt t env =
      (if (env.upsert senderId).2 then
        Outcome.pairingPrompted senderId (env.upsert senderId).1
          ⟨chatId,
           (env.buildPairingReply
              ("Channel Talk " ++ (if personType = some "manager" then "manager" else "user")
                ++ " ID: " ++ senderId)
              (env.upsert senderId).1).replace "<code>" (env.upsert senderId).1,
           if isGroupChat then "group" else "userChat", t.botName⟩
       else Outcome.pairingPending senderId (env.upsert senderId).1) ∧
    (gateAndDispatch senderId senderName senderEmail messageId chatId rawBody isGroupChat
        personType createdAt t env).pipelineInvoked = false ∧
    (gateAndDispatch senderId senderName senderEmail messageId chatId rawBody isGroupChat
        personType createdAt t env).sends.length =
      (if (env.upsert senderId).2 then 1 else 0) := by
  have h : gateAndDispatch senderId senderName senderEmail messageId chatId rawBody isGroupChat
      personType createdAt t env =
      (if (env.upsert senderId).2 then
        Outcome.pairingPrompted senderId (env.upsert senderId).1
          ⟨chatId,
           (env.buildPairingReply
              ("Channel Talk " ++ (if personType = some "manager" then "manager" else "user")
                ++ " ID: " ++ senderId)
              (env.upsert senderId).1).replace "<code>" (env.upsert senderId).1,
           if isGroupChat then "group" else "userChat", t.botName⟩
       else Outcome.pairingPending senderId (env.upsert senderId).1) := by
    simp only [gateAndDispatch]
    rw [if_pos hpol, hmem, hwild]
    rw [if_neg (by decide : ¬ ((false || false) = true))]
  refine ⟨h, ?_, ?_⟩ <;> rw [h] <;> cases h2 : (env.upsert senderId).2 <;>
    simp [h2, Outcome.pipelineInvoked, Outcome.sends]

/-- Target of the C3 witness. -/
def c3Target : WebhookTarget := ⟨"default", ⟨"k", "s"⟩, none, none, []⟩

/-- Environment of the C3 witness: pairing policy, empty allow lists, the
upsert issuing code `CODE42` as a new request. -/
def c3Env : Env :=
  ⟨⟨some "pairing", some []⟩, [], fun _ => ("CODE42", true), fun i c => i ++ " code " ++ c,
   fun _ _ _ => "sess", 0⟩

/-- Witness for C3: sender `alice`, unpaired, new pairing request. -/
theorem c3_witness :
    gateAndDispatch "alice" "Alice" none "m1" "c1" "hi" false (some "user") (some 1)
        c3Target c3Env =
      (if (c3Env.upsert "alice").2 then
        Outcome.pairingPrompted "alice" (c3Env.upsert "alice").1
          ⟨"c1",
           (c3Env.buildPairingReply
              ("Channel Talk " ++ (if (some "user" : Option String) = some "manager"
                then "manager" else "user") ++ " ID: " ++ "alice")
              (c3Env.upsert "alice").1).replace "<code>" (c3Env.upsert "alice").1,
           if false then "group" else "userChat", c3Target.botName⟩
       else Outcome.pairingPending "alice" (c3Env.upsert "alice").1) ∧
    (gateAndDispatch "alice" "Alice" none "m1" "c1" "hi" false (some "user") (some 1)
        c3Target c3Env).pipelineInvoked = false ∧
    (gateAndDispatch "alice" "Alice" none "m1" "c1" "hi" false (some "user") (some 1)
        c3Target c3Env).sends.length = (if (c3Env.upsert "alice").2 then 1 else 0) :=
  c3_pairing_gate "alice" "Alice" none "m1" "c1" "hi" false (some "user") (some 1)
    c3Target c3Env rfl rfl rfl

/-! ## Claim C4: keyword gating is group-only -/

/-- Group-chat message entity authored by the bot, for the C4
counterexample. -/
def c4Entity : MessageEntity :=
  ⟨some "m1", some "g1", some "group", some "bot", some "b1", some "hello", none, none⟩

/-- Group-chat webhook event authored by the bot. -/
def c4Event : WebhookEvent := ⟨some "push", some "Message", some c4Entity, none⟩

/-- Target with no trigger keywords, for the C4 counterexample. -/
def c4Target : WebhookTarget := ⟨"default", ⟨"k", "s"⟩, none, none, []⟩

/-- Counterexample to C4 as stated: the claim's group-chat clause — true
iff `triggerKeywords` is empty or a keyword occurs in the text — is
quantified over every group-chat event, but a bot-authored group message
with empty `triggerKeywords` makes the right side true while
`shouldProcess` rejects it (bot-loop suppression, rule 2). -/
theorem c4_counterexample :
    ¬ (shouldProcess c4Event c4Target = true ↔
        (c4Target.triggerKeywords = [] ∨
          keywordTriggered c4Target.triggerKeywords (extractText c4Entity) = true)) := by
  decide

/-- Claim C4 as amended: restricted to events that pass the prior filter
rules (a `Message`-type event, not bot-authored, non-empty trimmed
text) — direct chats are never keyword-gated, and a group-chat event
passes iff `triggerKeywords` is empty or the lower-cased text contains a
lower-cased keyword as a substring. -/
theorem c4_keyword_gating (ev : WebhookEvent) (m : MessageEntity) (t : WebhookTarget)
    (hty : ev.type = some "Message") (hent : ev.entity = some m)
    (hbot : m.personType ≠ some "bot") (htext : extractText m ≠ "") :
    (m.chatType.getD "userChat" ≠ "group" → shouldProcess ev t = true) ∧
    (m.chatType.getD "userChat" = "group" →
      (shouldProcess ev t = true ↔
        (t.triggerKeywords = [] ∨
          keywordTriggered t.triggerKeywords (extractText m) = true))) := by
  constructor
  · intro hd
    simp [shouldProcess, hty, hent, hbot, htext, hd]
  · intro hg
    by_cases hk : t.triggerKeywords = []
    · simp [shouldProcess, hty, hent, hbot, htext, hg, hk]
    · simp [shouldProcess, hty, hent, hbot, htext, hg, hk]

/-- Direct-chat message entity of the C4 witness. -/
def c4DirectEntity : MessageEntity :=
  ⟨some "m2", some "c2", some "userChat", some "user", some "u2", some "hi", none, none⟩

/-- Direct-chat webhook event of the C4 witness. -/
def c4DirectEvent : WebhookEvent := ⟨some "push", some "Message", some c4DirectEntity, none⟩

/-- Witness for the amended C4: a direct-chat message passes even though
no configured keyword occurs in it. -/
theorem c4_witness :
    shouldProcess c4DirectEvent ⟨"default", ⟨"k", "s"⟩, none, none, ["키워드"]⟩ = true :=
  (c4_keyword_gating c4DirectEvent c4DirectEntity ⟨"default", ⟨"k", "s"⟩, none, none, ["키워드"]⟩
    rfl rfl (by decide) (by decide)).1 (by decide)

/-! ## Claim C5: normalize's extraction contract -/

/-- Claim C5: the chat id comes from the nested `chat.id` when present
and non-empty, else from the flat legacy `chatId` (so nested `"G1"` beats
flat `"G2"`); the text comes from the nested `input.message` when present
and non-empty, else from the flat `value`; an absent (or empty) chat id
yields the tagged missing-chat-id failure result and an input that trims
to empty yields the tagged missing-input failure result — both returned,
not thrown, and neither starts webhook processing. -/
theorem c5_normalize_extraction :
    (∀ (p : FunctionParams) (n : String),
        p.chat.bind ChatRef.id = some n → n ≠ "" → fnChatId p = n) ∧
    (∀ p : FunctionParams,
        (p.chat.bind ChatRef.id = none ∨ p.chat.bind ChatRef.id = some "") →
        fnChatId p = p.chatId.getD "") ∧
    (∀ (p : FunctionParams) (s : String),
        p.input.bind InputRef.message = some s → s ≠ "" → fnUserInput p = jsTrim s) ∧
    (∀ p : FunctionParams,
        (p.input.bind InputRef.message = none ∨ p.input.bind InputRef.message = some "") →
        fnUserInput p = jsTrim (p.value.getD "")) ∧
    fnChatId ⟨some ⟨some "G1", none⟩, none, some "G2", none, none⟩ = "G1" ∧
    (∀ (req : FunctionRequest) (t : FunctionTarget) (env : Env),
        fnChatId (req.params.getD ⟨none, none, none, none, none⟩) = "" →
        processFunctionRequest req t env =
          (FunctionResponse.error "Missing chatId in params", none)) ∧
    (∀ (req : FunctionRequest) (t : FunctionTarget) (env : Env),
        fnChatId (req.params.getD ⟨none, none, none, none, none⟩) ≠ "" →
        fnUserInput (req.params.getD ⟨none, none, none, none, none⟩) = "" →
        processFunctionRequest req t env =
          (FunctionResponse.error "Missing user input", none)) := by
  refine ⟨?_, ?_, ?_, ?_, ?_, ?_, ?_⟩
  · intro p n h hn
    simp [fnChatId, jsOrS, h, hn]
  · intro p h
    rcases h with h | h <;> cases hc : p.chatId <;> simp [fnChatId, jsOrS, h, hc]
  · intro p s h hs
    simp [fnUserInput, jsOrS, h, hs]
  · intro p h
    rcases h with h | h <;> cases hv : p.value <;> simp [fnUserInput, jsOrS, h, hv] <;>
      split <;> simp_all
  · rfl
  · intro req t env h
    simp [processFunctionRequest, h]
  · intro req t env h1 h2
    simp [processFunctionRequest, h1, h2]

/-- Witness for C5: a request with no parameters at all fails with the
tagged missing-chat-id result and starts no webhook processing. -/
theorem c5_witness :
    processFunctionRequest ⟨none, none, none⟩ ⟨"default", ⟨"k", "s"⟩, none⟩
      ⟨⟨none, none⟩, [], fun _ => ("C", true), fun _ c => c, fun _ _ _ => "", 0⟩ =
      (FunctionResponse.error "Missing chatId in params", none) :=
  c5_normalize_extraction.2.2.2.2.2.1 ⟨none, none, none⟩ ⟨"default", ⟨"k", "s"⟩, none⟩
    ⟨⟨none, none⟩, [], fun _ => ("C", true), fun _ c => c, fun _ _ _ => "", 0⟩ rfl

/-! ## Claim C6: caller-kind mapping and referenced slots -/

/-- Function request whose caller kind is `"bot"` — neither `"manager"`
nor `"user"` — with a valid chat id and input. -/
def c6Req : FunctionRequest :=
  ⟨some "cmd", some ⟨some ⟨some "C1", some "userChat"⟩, some ⟨some "hello"⟩, none, none, none⟩,
   some ⟨some ⟨some "bot", some "B1"⟩⟩⟩

/-- Function target for C6. -/
def c6Target : FunctionTarget := ⟨"default", ⟨"k", "s"⟩, none⟩

/-- Environment for C6. -/
def c6Env : Env := ⟨⟨none, none⟩, [], fun _ => ("C", true), fun _ c => c, fun _ _ _ => "", 7⟩

/-- The event synthesized for the C6 counterexample request. -/
def c6Synth : WebhookEvent :=
  ⟨some "push", some "Message",
   some ⟨some "function-7", some "C1", some "userChat", some "bot", some "B1", some "hello",
     none, some 7⟩,
   some ⟨none, none, none⟩⟩

/-- Counterexample to C6 as stated: a caller kind of `"bot"` is neither
mapped to a Customer author nor given a populated referenced slot — the
synthesized event carries `personType = "bot"` verbatim, both the
referenced-manager and referenced-customer slots are empty (not exactly
one), and webhook processing then treats the author as the bot and skips
the message. -/
theorem c6_counterexample :
    processFunctionRequest c6Req c6Target c6Env =
      (FunctionResponse.text "처리 중입니다...",
        some (c6Synth, ⟨"default", ⟨"k", "s"⟩, none, none, []⟩)) ∧
    c6Synth.refers = some ⟨none, none, none⟩ ∧
    processWebhookEvent c6Synth ⟨"default", ⟨"k", "s"⟩, none, none, []⟩ c6Env =
      Outcome.skipBot := by
  exact ⟨rfl, rfl, rfl⟩

/-- Claim C6 as amended: the synthesized event's author kind is the
resolved caller kind verbatim (`"user"` when absent); caller kind
`"manager"` populates exactly the referenced-manager slot, caller kind
`"user"` exactly the referenced-customer slot, and any other caller kind
populates neither slot. -/
theorem c6_author_mapping (params : FunctionParams) (context : FunctionContext) (env : Env) :
    ((fnSynthEvent params context env).entity.map MessageEntity.personType =
      some (some (fnCallerType context))) ∧
    (fnCallerType context = "manager" →
      (fnSynthEvent params context env).refers =
        some ⟨none, none, some ⟨some (fnCallerId context), some "Manager", none⟩⟩) ∧
    (fnCallerType context = "user" →
      (fnSynthEvent params context env).refers =
        some ⟨none, some ⟨some (fnCallerId context), some "User", none⟩, none⟩) ∧
    (fnCallerType context ≠ "manager" → fnCallerType context ≠ "user" →
      (fnSynthEvent params context env).refers = some ⟨none, none, none⟩) := by
  refine ⟨rfl, ?_, ?_, ?_⟩
  · intro h
    simp [fnSynthEvent, h]
  · intro h
    simp [fnSynthEvent, h]
  · intro h1 h2
    simp [fnSynthEvent, h1, h2]

/-- Witness for the amended C6 at a `"manager"` caller. -/
theorem c6_witness :
    (fnSynthEvent ⟨none, none, some "C2", none, some "hi"⟩ ⟨some ⟨some "manager", some "M1"⟩⟩
      c6Env).refers = some ⟨none, none, some ⟨some "M1", some "Manager", none⟩⟩ := by
  have h := (c6_author_mapping ⟨none, none, some "C2", none, some "hi"⟩
    ⟨some ⟨some "manager", some "M1"⟩⟩ c6Env).2.1 rfl
  simpa using h

/-! ## Claim C7: malformed input at the HTTP boundary -/

/-- A function request that parses as JSON but lacks any chat id. -/
def c7Req : FunctionRequest :=
  ⟨some "cmd", some ⟨none, some ⟨some "hello"⟩, none, none, none⟩,
   some ⟨some ⟨some "user", some "u1"⟩⟩⟩

/-- Function target for C7. -/
def c7Target : FunctionTarget := ⟨"default", ⟨"k", "s"⟩, none⟩

/-- Environment for C7. -/
def c7Env : Env := ⟨⟨none, none⟩, [], fun _ => ("C", true), fun _ c => c, fun _ _ _ => "", 3⟩

/-- Counterexample to C7 as stated: a request body that is valid JSON but
is missing the required chat id is NOT answered with HTTP 400 — the
handler acknowledges it with 200 and starts background processing, where
the tagged missing-chat-id result is produced and discarded. -/
theorem c7_counterexample :
    handleFunctionBody (BodyRead.ok c7Req) c7Target c7Env =
      (⟨200, HttpBody.jsonAck "처리 중입니다..."⟩,
        some (FunctionResponse.error "Missing chatId in params", none)) := by
  exact rfl

/-- Claim C7 as amended: only bodies that fail `readJsonBody` (invalid
JSON, an oversized or unreadable body) are surfaced synchronously — 400
(413 for the size cap) with a machine-readable error body and no
background processing on either endpoint.  A body that parses but lacks
a required identity/chat field is acknowledged with 200 and background
processing is started; on the function path the missing-field error
exists only as the background run's discarded tagged result. -/
theorem c7_malformed_handling (wt : WebhookTarget) (ft : FunctionTarget) (env : Env) :
    handleWebhookBody BodyRead.invalidJson wt env =
      (⟨400, HttpBody.errorText "invalid_json"⟩, none) ∧
    handleFunctionBody BodyRead.invalidJson ft env =
      (⟨400, HttpBody.jsonError "invalid_json"⟩, none) ∧
    handleWebhookBody BodyRead.payloadTooLarge wt env =
      (⟨413, HttpBody.errorText "payload_too_large"⟩, none) ∧
    handleFunctionBody BodyRead.payloadTooLarge ft env =
      (⟨413, HttpBody.jsonError "payload_too_large"⟩, none) ∧
    (∀ ev : WebhookEvent,
      handleWebhookBody (BodyRead.ok ev) wt env =
        (⟨200, HttpBody.emptyJson⟩, some (processWebhookEvent ev wt env))) ∧
    (∀ req : FunctionRequest,
      fnChatId (req.params.getD ⟨none, none, none, none, none⟩) = "" →
      handleFunctionBody (BodyRead.ok req) ft env =
        (⟨200, HttpBody.jsonAck "처리 중입니다..."⟩,
          some (FunctionResponse.error "Missing chatId in params", none))) := by
  refine ⟨rfl, rfl, rfl, rfl, fun ev => rfl, fun req h => ?_⟩
  simp [handleFunctionBody, processFunctionRequest, h]

/-- Witness for the amended C7 at a concrete chat-id-less request. -/
theorem c7_witness :
    handleFunctionBody (BodyRead.ok (⟨none, none, none⟩ : FunctionRequest)) c7Target c7Env =
      (⟨200, HttpBody.jsonAck "처리 중입니다..."⟩,
        some (FunctionResponse.error "Missing chatId in params", none)) :=
  (c7_malformed_handling ⟨"default", ⟨"k", "s"⟩, none, none, []⟩ c7Target c7Env).2.2.2.2.2
    ⟨none, none, none⟩ rfl

/-! ## Claim C8: markdown/block conversion on fence-free input -/

/-- On fence-free lines, the `markdownToBlocks` loop only accumulates
text lines and ends in a single `flushText`. -/
theorem mdLoop_no_fence (lines : List (List Char)) (textLines : List (List Char))
    (blocks : List MsgBlock) (h : lines.all (fun l => (fenceMatch l).isNone) = true) :
    mdLoop lines false [] [] textLines blocks = flushText (textLines ++ lines) blocks := by
  induction lines generalizing textLines with
  | nil => simp [mdLoop]
  | cons line rest ih =>
    simp only [List.all_cons, Bool.and_eq_true, Option.isNone_iff_eq_none] at h
    obtain ⟨h1, h2⟩ := h
    simp only [mdLoop, h1]
    rw [ih (textLines ++ [line]) (by simpa using h2)]
    simp [List.append_assoc]

/-- On fence-free input, `markdownToBlocks` produces exactly one text
block: the trimmed input when that is non-empty, otherwise the raw input
via the fallback block. -/
theorem markdownToBlocks_fence_free (s : String)
    (hf : (splitNl s.data).all (fun l => (fenceMatch l).isNone) = true) :
    markdownToBlocks s =
      [⟨"text", some (if jsTrim s = "" then s else jsTrim s), none, []⟩] := by
  have hs : jsTrim s = (⟨trimC s.data⟩ : String) := rfl
  have hmk : jsTrim s = "" ↔ trimC s.data = [] := by
    constructor
    · intro h
      exact congrArg String.data h
    · intro h
      rw [hs, h]
  have hne : ¬ ((splitNl s.data).isEmpty = true) := by
    cases hsp : splitNl s.data with
    | nil => exact absurd hsp (splitNl_ne_nil s.data)
    | cons a l => simp [List.isEmpty]
  simp only [markdownToBlocks]
  rw [mdLoop_no_fence (splitNl s.data) [] [] hf, List.nil_append]
  by_cases he : trimC s.data = []
  · have h1 : flushText (splitNl s.data) [] = [] := by
      simp only [flushText]
      rw [if_neg hne, joinNl_splitNl]
      simp [he]
    rw [h1]
    simp [hmk.mpr he]
  · have h1 : flushText (splitNl s.data) [] = [⟨"text", some ⟨trimC s.data⟩, none, []⟩] := by
      simp only [flushText]
      rw [if_neg hne, joinNl_splitNl]
      cases ht : trimC s.data with
      | nil => exact absurd ht he
      | cons c cs => simp [List.isEmpty]
    rw [h1]
    have hne2 : ¬ (jsTrim s = "") := fun hh => he (hmk.mp hh)
    simp [hne2, ← hs]

/-- Counterexample to C8 as stated: for the fence-free input `" hi "`
the single produced text block carries the trimmed string `"hi"`, not
the original string, and the round trip returns `"hi"` — no markup-tag
stripping is involved. -/
theorem c8_counterexample :
    markdownToBlocks " hi " ≠ [⟨"text", some " hi ", none, []⟩] ∧
    markdownToBlocks " hi " = [⟨"text", some "hi", none, []⟩] ∧
    blocksToText (markdownToBlocks " hi ") = "hi" := by
  exact ⟨by decide, rfl, rfl⟩

/-- Claim C8 as amended: for every input with no triple-backtick fence
line, `markdownToBlocks` returns exactly one text block whose value is
the trimmed input (the raw input when it trims to empty, via the
fallback), newlines preserved; and for input that is already trimmed and
free of markup tags, `blocksToText` recovers the original string. -/
theorem c8_fence_free_roundtrip (s : String)
    (hf : (splitNl s.data).all (fun l => (fenceMatch l).isNone) = true) :
    markdownToBlocks s =
      [⟨"text", some (if jsTrim s = "" then s else jsTrim s), none, []⟩] ∧
    (jsTrim s = s → stripTags s = s → blocksToText (markdownToBlocks s) = s) := by
  have hmd := markdownToBlocks_fence_free s hf
  refine ⟨hmd, fun ht hg => ?_⟩
  rw [hmd]
  by_cases he : jsTrim s = ""
  · have hs0 : s = "" := by rw [← ht, he]
    rw [if_pos he, hs0]
    decide
  · have hsne : s ≠ "" := fun hh => he (by rw [← ht] at hh; exact hh)
    rw [if_neg he, ht]
    have hb : blocksToText [⟨"text", some s, none, []⟩] = stripTags s := by
      simp [blocksToText, blockParts, optTruthy, hsne, joinNl]
    rw [hb, hg]

/-- Witness for the amended C8 on a trimmed, tag-free, fence-free
two-line input. -/
theorem c8_witness :
    markdownToBlocks "hello\nworld" = [⟨"text", some "hello\nworld", none, []⟩] ∧
    blocksToText (markdownToBlocks "hello\nworld") = "hello\nworld" := by
  have h := c8_fence_free_roundtrip "hello\nworld" (by decide)
  exact ⟨h.1.trans (by decide), h.2 (by decide) (by decide)⟩

/-! ## Claim C9: sender resolution is total on missing author ids -/

/-- Claim C9: when `message.personId` and the referenced record ids are
all absent, the resolved sender id is the literal `"unknown"` and
processing continues into the access gate with that id — the run is the
generic gate-and-dispatch stage applied at sender `"unknown"`, so the
`"unknown"` sender is gated like any other sender id. -/
theorem c9_unknown_sender (ev : WebhookEvent) (m : MessageEntity) (t : WebhookTarget)
    (env : Env) (cid : String)
    (hty : ev.type = some "Message") (hent : ev.entity = some m)
    (hbot : m.personType ≠ some "bot")
    (hpid : m.personId = none)
    (hmid : (ev.refers.bind Refers.manager).bind RefManager.id = none)
    (huid : (ev.refers.bind Refers.user).bind RefUser.id = none)
    (hcid : resolveChatId m ev.refers = some cid) (hcne : cid ≠ "")
    (htext : extractText m ≠ "")
    (hkw : ¬ (m.chatType.getD "userChat" = "group" ∧ t.triggerKeywords ≠ [] ∧
      ¬ (keywordTriggered t.triggerKeywords (extractText m) = true))) :
    (resolveSender m ev.refers).1 = "unknown" ∧
    processWebhookEvent ev t env =
      gateAndDispatch "unknown" (resolveSender m ev.refers).2.1 (resolveSender m ev.refers).2.2
        (m.id.getD "") cid (extractText m) (m.chatType.getD "userChat" = "group")
        m.personType m.createdAt t env := by
  have h1 : (resolveSender m ev.refers).1 = "unknown" := by
    unfold resolveSender
    split
    · rename_i mgr hp hm
      rw [hm] at hmid
      simp only [Option.some_bind] at hmid
      simp [hpid, hmid]
    · simp [hpid, huid]
  refine ⟨h1, ?_⟩
  have h2 : processWebhookEvent ev t env =
      gateAndDispatch (resolveSender m ev.refers).1 (resolveSender m ev.refers).2.1
        (resolveSender m ev.refers).2.2 (m.id.getD "") cid (extractText m)
        (m.chatType.getD "userChat" = "group") m.personType m.createdAt t env := by
    simp only [processWebhookEvent, hty, hent, hbot, hcid, hcne, htext, hkw]
    simp [processWebhookEvent, hty, hent, hbot, hcid, hcne, htext]
  rw [h2, h1]

/-- Message entity of the C9 witness: no `personId`, no message id. -/
def c9Entity : MessageEntity :=
  ⟨none, some "c9", some "userChat", some "user", none, some "hello", none, none⟩

/-- Webhook event of the C9 witness: no `refers` section at all. -/
def c9Event : WebhookEvent := ⟨some "push", some "Message", some c9Entity, none⟩

/-- Target of the C9 witness. -/
def c9Target : WebhookTarget := ⟨"default", ⟨"k", "s"⟩, none, none, []⟩

/-- Environment of the C9 witness. -/
def c9Env : Env :=
  ⟨⟨some "pairing", none⟩, [], fun _ => ("C9", true), fun _ c => c, fun _ _ _ => "s", 0⟩

/-- Witness for C9: the all-absent event resolves to sender `"unknown"`
and reaches the gate stage. -/
theorem c9_witness :
    (resolveSender c9Entity c9Event.refers).1 = "unknown" ∧
    processWebhookEvent c9Event c9Target c9Env =
      gateAndDispatch "unknown" (resolveSender c9Entity c9Event.refers).2.1
        (resolveSender c9Entity c9Event.refers).2.2 (c9Entity.id.getD "") "c9"
        (extractText c9Entity) (c9Entity.chatType.getD "userChat" = "group")
        c9Entity.personType c9Entity.createdAt c9Target c9Env :=
  c9_unknown_sender c9Event c9Entity c9Target c9Env "c9" rfl rfl (by decide) rfl rfl rfl rfl
    (by decide) (by decide) (by decide)

end CT
